import Mathlib

/-!
Verification of the scenario resolution engine and controller logic of the
Salesforce custom path assistant component.

The development shallowly embeds the JavaScript source:

* `utils.js` — the four scenario predicates over `ScenarioState`, and the
  `Step` value object with its comparison operations.
* `pathAssistant.js` — the controller (`Component`): scenario resolution
  order, step validation, the commit path (`_updateRecord` plus
  `_resetComponentState`), and the two button handlers.

JavaScript values of type string-or-undefined are embedded as
`Option String` (`none` is `undefined`). JavaScript truthiness of such a
value is `jsTruthy`: `undefined` and the empty string are falsy, every
other string is truthy. Strict equality `===` between two
string-or-undefined values coincides with equality on `Option String`.
Fallible operations (property access on `undefined` throws a TypeError)
return `Option`, with `none` marking the exception. External persistence
calls are recorded in an explicit `updateCalls` log on the component state.
-/

/-- JavaScript truthiness of a string-or-undefined value: `undefined` and
the empty string are falsy. -/
def jsTruthy : Option String → Bool
  | none => false
  | some s => decide (s ≠ "")

/-- Embeds `ScenarioState` from `utils.js`: the four facts the scenario
engine decides on. `selectedStage` and `currentStage` may be `undefined`
(the record may have no recognised current step, and the user may not have
clicked a step). -/
structure ScenarioState where
  isClosedStage : Bool
  selectedStage : Option String
  currentStage : Option String
  openModalStage : String
deriving DecidableEq, Repr

/-- Embeds `MarkAsCompleteScenario.appliesToState` from `utils.js`:
closed stages never apply; otherwise applies when `selectedStage` is falsy
or strictly equals `currentStage`. -/
def markAsCompleteApplies (s : ScenarioState) : Bool :=
  if s.isClosedStage then false
  else !(jsTruthy s.selectedStage) || decide (s.selectedStage = s.currentStage)

/-- Embeds `MarkAsCurrentScenario.appliesToState` from `utils.js`: first
the short-circuit `selectedStage === currentStage` check, then the closed
branch (`!!selectedStage`), then the open branch
(`selectedStage && selectedStage !== openModalStage`, boolified by the
caller's `if`). -/
def markAsCurrentApplies (s : ScenarioState) : Bool :=
  if s.selectedStage = s.currentStage then false
  else if s.isClosedStage then jsTruthy s.selectedStage
  else jsTruthy s.selectedStage && decide (s.selectedStage ≠ some s.openModalStage)

/-- Embeds `SelectClosedScenario.appliesToState` from `utils.js`. -/
def selectClosedApplies (s : ScenarioState) : Bool :=
  !s.isClosedStage && decide (s.selectedStage = some s.openModalStage)

/-- Embeds `ChangeClosedScenario.appliesToState` from `utils.js`. -/
def changeClosedApplies (s : ScenarioState) : Bool :=
  if !s.isClosedStage then false
  else !(jsTruthy s.selectedStage) || decide (s.selectedStage = s.currentStage)

/-- The closed set of scenario variants (the four `AbstractScenario`
subclasses in `utils.js`). -/
inductive ScenarioKind
  | markAsComplete
  | markAsCurrent
  | selectClosed
  | changeClosed
deriving DecidableEq, Repr

/-- Dispatches `appliesToState` over the variant. -/
def scenarioApplies : ScenarioKind → ScenarioState → Bool
  | .markAsComplete => markAsCompleteApplies
  | .markAsCurrent => markAsCurrentApplies
  | .selectClosed => selectClosedApplies
  | .changeClosed => changeClosedApplies

/-- The fixed order in which the component constructor pushes the four
scenarios onto `_scenarios` (`pathAssistant.js`, constructor). -/
def scenarioList : List ScenarioKind :=
  [.markAsComplete, .markAsCurrent, .selectClosed, .changeClosed]

/-- Embeds the loop of `_setCurrentScenario`: the first scenario in
`_scenarios` whose predicate holds on the state, if any. -/
def resolveState (s : ScenarioState) : Option ScenarioKind :=
  scenarioList.find? (fun k => scenarioApplies k s)

/-- Number of the four predicates that hold on a state. -/
def appliesCount (s : ScenarioState) : Nat :=
  (if markAsCompleteApplies s then 1 else 0) +
  (if markAsCurrentApplies s then 1 else 0) +
  (if selectClosedApplies s then 1 else 0) +
  (if changeClosedApplies s then 1 else 0)

/-- Modelled from the spec table (section 4.3, row 1): MarkAsComplete is
`!isClosed && (selected is unset || selected == current)`. The spec words
`is set` and `unset` describe the source truthiness tests, so `unset`
means JavaScript-falsy (`undefined` or the empty string). -/
def specMarkAsComplete (s : ScenarioState) : Bool :=
  !s.isClosedStage &&
    (!(jsTruthy s.selectedStage) || decide (s.selectedStage = s.currentStage))

/-- Modelled from the spec table (section 4.3, row 2): MarkAsCurrent is
`selected != current` and then, if closed, `selected is set`, else
`selected is set && selected != openModalSentinel`, with the
`selected == current` check short-circuiting first. -/
def specMarkAsCurrent (s : ScenarioState) : Bool :=
  decide (s.selectedStage ≠ s.currentStage) &&
    (if s.isClosedStage then jsTruthy s.selectedStage
     else jsTruthy s.selectedStage && decide (s.selectedStage ≠ some s.openModalStage))

/-- Modelled from the spec table (section 4.3, row 3): SelectClosed is
`!isClosed && selected == openModalSentinel`. -/
def specSelectClosed (s : ScenarioState) : Bool :=
  !s.isClosedStage && decide (s.selectedStage = some s.openModalStage)

/-- Modelled from the spec table (section 4.3, row 4): ChangeClosed is
`isClosed && (selected is unset || selected == current)`. -/
def specChangeClosed (s : ScenarioState) : Bool :=
  s.isClosedStage &&
    (!(jsTruthy s.selectedStage) || decide (s.selectedStage = s.currentStage))

/-- Embeds the `Step` value object from `utils.js`. A `new Step()` with no
arguments (the sentinel empty step returned by the `currentStep` getter
when no picklist value matches) has every field `undefined`; `classText`
is populated only later by `setClassText`. The `index` is the ordinal the
picklist map assigns, hence a natural number when present. -/
structure Step where
  value : Option String
  label : Option String
  index : Option Nat
  classText : Option String
deriving DecidableEq, Repr

/-- The sentinel empty step, `new Step()`. -/
def Step.emptyStep : Step := ⟨none, none, none, none⟩

/-- Embeds `Step.equals` applied to a bare string argument: the falsy
guard `if (!otherStep) return false` rejects the empty string, otherwise
the loose comparison `this.value == otherStep` between a
string-or-undefined and a string coincides with `value = some other`. -/
def Step.equalsStr (st : Step) (other : String) : Bool :=
  if other = "" then false else decide (st.value = some other)

/-- Embeds `Step.equals` applied to a string-or-null-or-undefined
argument (for example the live record field value): a nullish argument is
falsy, so the guard returns `false`. -/
def Step.equalsOpt (st : Step) (other : Option String) : Bool :=
  match other with
  | none => false
  | some x => st.equalsStr x

/-- Embeds `Step.isBefore`: `this.index < otherStep.index`. A comparison
against `undefined` is a NaN comparison in JavaScript and yields
`false`. -/
def Step.isBefore (st other : Step) : Bool :=
  match st.index, other.index with
  | some a, some b => decide (a < b)
  | _, _ => false

/-- Embeds `Step.isAfter`: `this.index > otherStep.index`, `false` on any
`undefined` operand. -/
def Step.isAfter (st other : Step) : Bool :=
  match st.index, other.index with
  | some a, some b => decide (a > b)
  | _, _ => false

/-- Embeds `Step.isSame`: `this.index === otherStep.index`. Strict
equality holds between `undefined` and `undefined`, so two index-less
steps compare as the same. -/
def Step.isSame (st other : Step) : Bool :=
  decide (st.index = other.index)

/-- Embeds `Step.hasValue`: `!!this.value`. -/
def Step.hasValue (st : Step) : Bool :=
  jsTruthy st.value

/-- Embeds `Step.setClassText`. -/
def Step.setClassText (st : Step) (v : String) : Step :=
  { st with classText := some v }

/-- One invocation of the external persistence capability `updateRecord`:
the record id and the single field assignment `fields[picklistField] =
stepValue` built by `_updateRecord`. -/
structure UpdateCall where
  recordId : String
  fieldName : String
  newValue : Option String
deriving DecidableEq, Repr

/-- Completion of the asynchronous persistence call: the promise either
resolves or rejects with an error message (`error.body.message`). -/
inductive UpdateOutcome
  | success
  | failure (msg : String)
deriving DecidableEq, Repr

/-- The slice of the object metadata the component keeps (`objectInfo`):
for this development only the label of the tracked picklist field
matters. Presence or absence of the whole record is what the claims
inspect. -/
structure ObjectInfo where
  picklistFieldLabel : String
deriving DecidableEq, Repr

/-- Embeds the controller state of the `PathAssistant` component
(`pathAssistant.js`). Configuration properties are plain strings;
reactive fields that start `undefined` are `Option`s. `record` is
`some v` once the wire adapter delivered a record whose tracked picklist
field holds `v` (itself possibly null). `updateCalls` is the log of
persistence requests issued so far. -/
structure Component where
  recordId : String
  picklistField : String
  closedOk : String
  closedKo : String
  lastStepLabel : String
  spinner : Bool
  openModal : Bool
  objectInfo : Option ObjectInfo
  record : Option (Option String)
  errorMsg : Option String
  possibleSteps : Option (List Step)
  selectedStepValue : Option String
  recordTypeId : Option String
  currentScenario : Option ScenarioKind
  selectedClosedStepValue : Option String
  updateCalls : List UpdateCall
deriving DecidableEq, Repr

/-- Embeds `_resetComponentState`: clears `record`, `selectedStepValue`,
`_selectedClosedStepValue` and `_currentScenario`, and nothing else. -/
def resetComponentState (c : Component) : Component :=
  { c with
    record := none
    selectedStepValue := none
    selectedClosedStepValue := none
    currentScenario := none }

/-- Embeds the synchronous part of `_updateRecord`: build the update
payload, start the spinner, issue the persistence call, and reset the
component state. The promise continuations run later and are modelled by
`updateRecordComplete`. -/
def updateRecordSync (c : Component) (stepValue : Option String) : Component :=
  resetComponentState
    { c with
      spinner := true
      updateCalls := c.updateCalls ++ [⟨c.recordId, c.picklistField, stepValue⟩] }

/-- Embeds the promise continuations of `_updateRecord`: on resolution
the spinner is cleared; on rejection the error message is surfaced and
the spinner is cleared. -/
def updateRecordComplete (c : Component) (o : UpdateOutcome) : Component :=
  match o with
  | .success => { c with spinner := false }
  | .failure m => { c with spinner := false, errorMsg := some m }

/-- A whole commit: the synchronous part of `_updateRecord` followed by
the completion of the persistence call. -/
def updateRecordFull (c : Component) (stepValue : Option String)
    (o : UpdateOutcome) : Component :=
  updateRecordComplete (updateRecordSync c stepValue) o

/-- Embeds the `currentStep` getter. `for..in` over an `undefined` or
empty `possibleSteps` performs no iterations and falls through to
`new Step()`; with a non-empty list each iteration reads
`this.record.fields[field].value`, which throws when `record` is still
`undefined` (outer `none`). Otherwise the first step whose `equals`
accepts the live field value is returned, or the sentinel empty step. -/
def Component.currentStepGet (c : Component) : Option Step :=
  match c.possibleSteps with
  | none => some Step.emptyStep
  | some [] => some Step.emptyStep
  | some steps =>
    match c.record with
    | none => none
    | some v => some ((steps.find? (fun st => st.equalsOpt v)).getD Step.emptyStep)

/-- Embeds the `nextStep` getter,
`this.possibleSteps[this.currentStep.index + 1]` (outer `none` is a
thrown TypeError, inner `none` is the value `undefined`). Indexing into
an `undefined` list throws; a sentinel current step has `undefined`
index, `undefined + 1` is NaN and indexing by NaN yields `undefined`. -/
def Component.nextStepGet (c : Component) : Option (Option Step) :=
  match c.possibleSteps with
  | none => none
  | some steps =>
    match c.currentStepGet with
    | none => none
    | some cs =>
      match cs.index with
      | none => some none
      | some i => some steps[i + 1]?

/-- The module constant `OPEN_MODAL_TO_SELECT_CLOSED_STEP` of
`pathAssistant.js`, the sentinel stage value that means "open the
terminal-outcome chooser". -/
def openModalSentinel : String := "pathAssistant_selectAClosedStepValue"

/-- Embeds the assignment behaviour of `_setCurrentScenario`: the loop
sets `_currentScenario` to the first scenario whose predicate accepts the
state and breaks; when no predicate matches, the field keeps its previous
value. -/
def setCurrentScenarioModel (prev : Option ScenarioKind) (s : ScenarioState) :
    Option ScenarioKind :=
  match resolveState s with
  | some k => some k
  | none => prev

/-- Embeds `handleUpdateButtonClick`. Dispatch on the current scenario
(`undefined.constructor` throws, hence `none` when no scenario is
resolved). Under MarkAsComplete the handler opens the modal when the next
step equals either closed value and otherwise commits the next step value
directly; `undefined.equals` throws when there is no next step. Only the
synchronous effects are modelled; the promise completion is
`updateRecordComplete`. -/
def Component.handleUpdateButtonClick (c : Component) : Option Component :=
  match c.currentScenario with
  | none => none
  | some .markAsComplete =>
    match c.nextStepGet with
    | none => none
    | some none => none
    | some (some ns) =>
      if ns.equalsStr c.closedKo || ns.equalsStr c.closedOk then
        some { c with openModal := true }
      else
        some (updateRecordSync c ns.value)
  | some .markAsCurrent => some (updateRecordSync c c.selectedStepValue)
  | some .selectClosed => some { c with openModal := true }
  | some .changeClosed => some { c with openModal := true }

/-- Embeds `handleSaveButtonClick`: return immediately when
`_selectedClosedStepValue` is falsy, otherwise commit it and close the
modal. -/
def Component.handleSaveButtonClick (c : Component) : Component :=
  if jsTruthy c.selectedClosedStepValue then
    { updateRecordSync c c.selectedClosedStepValue with openModal := false }
  else c

/-- The error message `_validateSteps` writes when the configured
closedOk value is missing from the loaded steps. -/
def closedOkMissingMsg (closedOk rtId : String) : String :=
  closedOk ++ " value is not available for record type " ++ rtId

/-- The error message `_validateSteps` writes when the configured
closedKo value is missing from the loaded steps. -/
def closedKoMissingMsg (closedKo rtId : String) : String :=
  closedKo ++ " value is not available for record type " ++ rtId

/-- The error message `_validateSteps` writes when fewer than three steps
are available. -/
def insufficientStepsMsg (rtId : String) : String :=
  "Not enough picklist values are available for record type " ++ rtId ++ "."

/-- Embeds `_validateSteps` as the value `errorMsg` holds afterwards. The
availability scan uses `step.equals(closedOk)` and `step.equals(closedKo)`
aggregated with `|=`; then the three checks run unconditionally in source
order, each failing check overwriting `errorMsg`. `prev` is the value of
`errorMsg` before the call. -/
def validateStepsErr (steps : List Step) (closedOk closedKo rtId : String)
    (prev : Option String) : Option String :=
  let okAv := steps.any (fun st => st.equalsStr closedOk)
  let koAv := steps.any (fun st => st.equalsStr closedKo)
  let e1 := if okAv then prev else some (closedOkMissingMsg closedOk rtId)
  let e2 := if koAv then e1 else some (closedKoMissingMsg closedKo rtId)
  if steps.length < 3 then some (insufficientStepsMsg rtId) else e2

/-- A concrete picklist for witnesses: two open steps followed by the two
closed ones, indexed in picklist order as `wiredPicklistValues` builds
them. -/
def sampleSteps : List Step :=
  [⟨some "New", some "New", some 0, none⟩,
   ⟨some "Working", some "Working", some 1, none⟩,
   ⟨some "Won", some "Won", some 2, none⟩,
   ⟨some "Lost", some "Lost", some 3, none⟩]

/-- A concrete fully loaded component for witnesses: record in the open
stage Working, no user selection, MarkAsComplete resolved. -/
def sampleComponent : Component :=
  { recordId := "006000000000001"
    picklistField := "StageName"
    closedOk := "Won"
    closedKo := "Lost"
    lastStepLabel := "Closed"
    spinner := false
    openModal := false
    objectInfo := some ⟨"Stage"⟩
    record := some (some "Working")
    errorMsg := none
    possibleSteps := some sampleSteps
    selectedStepValue := none
    recordTypeId := some "012000000000000"
    currentScenario := some .markAsComplete
    selectedClosedStepValue := none
    updateCalls := [] }

/-- Coverage of the four predicates: on every state at least one
applies. -/
theorem scenarioCoverage (s : ScenarioState) :
    markAsCompleteApplies s = true ∨ markAsCurrentApplies s = true ∨
    selectClosedApplies s = true ∨ changeClosedApplies s = true := by
  obtain ⟨cl, sel, cur, modal⟩ := s
  cases cl
  · by_cases hc : sel = cur
    · left; simp [markAsCompleteApplies, hc]
    · by_cases ht : jsTruthy sel
      · by_cases hm : sel = some modal
        · right; right; left; simp [selectClosedApplies, hm]
        · right; left; simp [markAsCurrentApplies, hc, ht, hm]
      · left; simp [markAsCompleteApplies, ht]
  · by_cases hc : sel = cur
    · right; right; right; simp [changeClosedApplies, hc]
    · by_cases ht : jsTruthy sel
      · right; left; simp [markAsCurrentApplies, hc, ht]
      · right; right; right; simp [changeClosedApplies, ht]

/-- Claim C1: each of the four scenario predicates of `utils.js` agrees
with the corresponding formula of the spec table (section 4.3) on every
`ScenarioState`, with the spec words set/unset read as the source
truthiness test and with the MarkAsCurrent short-circuit on
`selected == current` first. -/
theorem scenarioPredicatesMatchSpecTable (s : ScenarioState) :
    markAsCompleteApplies s = specMarkAsComplete s ∧
    markAsCurrentApplies s = specMarkAsCurrent s ∧
    selectClosedApplies s = specSelectClosed s ∧
    changeClosedApplies s = specChangeClosed s := by
  obtain ⟨cl, sel, cur, modal⟩ := s
  refine ⟨?_, ?_, rfl, ?_⟩
  · cases cl <;> simp [markAsCompleteApplies, specMarkAsComplete]
  · by_cases h : sel = cur <;>
      cases cl <;>
        simp [markAsCurrentApplies, specMarkAsCurrent, h]
  · cases cl <;> simp [changeClosedApplies, specChangeClosed]

/-- Claim C1 has no hypothesis beyond the universally quantified state,
but the table is also checked on one concrete state: open record, no
selection. -/
theorem scenarioPredicatesMatchSpecTable_witness :
    markAsCompleteApplies ⟨false, none, some "New", openModalSentinel⟩ =
      specMarkAsComplete ⟨false, none, some "New", openModalSentinel⟩ :=
  (scenarioPredicatesMatchSpecTable ⟨false, none, some "New", openModalSentinel⟩).1

/-- Claim C2 as stated is false: on the state with an open record where
the selected stage, the current stage and the sentinel all carry the same
value, both MarkAsComplete (selected equals current) and SelectClosed
(selected equals the sentinel) hold, so two predicates are true at
once. -/
theorem atMostOneScenario_cex :
    ¬ (appliesCount ⟨false, some "M", some "M", "M"⟩ ≤ 1) := by decide

/-- Claim C2 amended: at most one of the four predicates holds on every
state whose sentinel `openModalStage` is a non-empty string different
from the current stage (as is the case for the fixed constant sentinel of
`pathAssistant.js`, which is never a real picklist value). -/
theorem atMostOneScenarioAmended (s : ScenarioState)
    (h1 : s.openModalStage ≠ "")
    (h2 : s.currentStage ≠ some s.openModalStage) :
    appliesCount s ≤ 1 := by
  obtain ⟨cl, sel, cur, modal⟩ := s
  simp only at h1 h2
  cases cl
  · by_cases hm : sel = some modal
    · have ht : jsTruthy sel = true := by simp [hm, jsTruthy, h1]
      have hne : ¬ (sel = cur) := by
        intro h
        exact h2 (h ▸ hm)
      simp [appliesCount, markAsCompleteApplies, markAsCurrentApplies,
        selectClosedApplies, changeClosedApplies, hm, ht, hne]
      exact ⟨by simp [jsTruthy, h1], fun h => h2 h.symm⟩
    · by_cases hc : sel = cur
      · simp [appliesCount, markAsCompleteApplies, markAsCurrentApplies,
          selectClosedApplies, changeClosedApplies, hm, hc]
        exact fun h => h2 h
      · by_cases ht : jsTruthy sel <;>
          simp [appliesCount, markAsCompleteApplies, markAsCurrentApplies,
            selectClosedApplies, changeClosedApplies, hm, hc, ht]
  · by_cases hc : sel = cur
    · simp [appliesCount, markAsCompleteApplies, markAsCurrentApplies,
        selectClosedApplies, changeClosedApplies, hc]
    · by_cases ht : jsTruthy sel <;>
        simp [appliesCount, markAsCompleteApplies, markAsCurrentApplies,
          selectClosedApplies, changeClosedApplies, hc, ht]

/-- Witness for the amended claim C2 at a concrete state carrying the
real sentinel constant. -/
theorem atMostOneScenarioAmended_witness :
    appliesCount ⟨false, none, some "New", openModalSentinel⟩ ≤ 1 :=
  atMostOneScenarioAmended ⟨false, none, some "New", openModalSentinel⟩
    (by decide) (by decide)

/-- Claim C10: on every state at least one scenario predicate holds when
the list is tried in construction order, so the resolver never falls
through and `_setCurrentScenario` always assigns one of the four
scenarios, whatever value the field held before. -/
theorem resolverAlwaysMatches (s : ScenarioState) :
    ∃ k, resolveState s = some k ∧
      ∀ prev, setCurrentScenarioModel prev s = some k := by
  by_cases h1 : markAsCompleteApplies s
  · exact ⟨.markAsComplete,
      by simp [resolveState, scenarioList, List.find?, scenarioApplies, h1],
      fun prev => by
        simp [setCurrentScenarioModel, resolveState, scenarioList, List.find?,
          scenarioApplies, h1]⟩
  · by_cases h2 : markAsCurrentApplies s
    · exact ⟨.markAsCurrent,
        by simp [resolveState, scenarioList, List.find?, scenarioApplies, h1, h2],
        fun prev => by
          simp [setCurrentScenarioModel, resolveState, scenarioList, List.find?,
            scenarioApplies, h1, h2]⟩
    · by_cases h3 : selectClosedApplies s
      · exact ⟨.selectClosed,
          by simp [resolveState, scenarioList, List.find?, scenarioApplies, h1, h2, h3],
          fun prev => by
            simp [setCurrentScenarioModel, resolveState, scenarioList, List.find?,
              scenarioApplies, h1, h2, h3]⟩
      · have h4 : changeClosedApplies s = true := by
          rcases scenarioCoverage s with h | h | h | h
          · exact absurd h h1
          · exact absurd h h2
          · exact absurd h h3
          · exact h
        exact ⟨.changeClosed,
          by simp [resolveState, scenarioList, List.find?, scenarioApplies, h1, h2, h3, h4],
          fun prev => by
            simp [setCurrentScenarioModel, resolveState, scenarioList, List.find?,
              scenarioApplies, h1, h2, h3, h4]⟩


/-- Claim C4 as stated is false: with the sentinel empty step on both
sides, `isSame` compares `undefined === undefined` and returns `true`,
not `false`. -/
theorem sentinelComparisons_cex :
    ¬ (Step.isSame Step.emptyStep Step.emptyStep = false) := by decide

/-- Claim C4 amended: for any pair of steps with a sentinel (index-less)
operand, `isBefore` and `isAfter` return false, while `isSame` returns
false exactly when the other operand has an index and true when both
operands lack one. -/
theorem sentinelComparisonsAmended (a b : Step)
    (h : a.index = none ∨ b.index = none) :
    a.isBefore b = false ∧ a.isAfter b = false ∧
      a.isSame b = decide (a.index = none ∧ b.index = none) := by
  rcases h with h | h <;>
    rcases ha : a.index with _ | i <;> rcases hb : b.index with _ | j <;>
      simp_all [Step.isBefore, Step.isAfter, Step.isSame]

/-- Witness for the amended claim C4: the sentinel against a real indexed
step is not before, not after and not the same. -/
theorem sentinelComparisonsAmended_witness :
    Step.isBefore Step.emptyStep ⟨some "New", some "New", some 0, none⟩ = false ∧
    Step.isAfter Step.emptyStep ⟨some "New", some "New", some 0, none⟩ = false ∧
    Step.isSame Step.emptyStep ⟨some "New", some "New", some 0, none⟩ =
      decide (Step.emptyStep.index = none ∧
        (⟨some "New", some "New", some 0, none⟩ : Step).index = none) :=
  sentinelComparisonsAmended Step.emptyStep ⟨some "New", some "New", some 0, none⟩
    (Or.inl rfl)

/-- Claim C5 as stated is false at the empty identifier: a step whose
value is the empty string satisfies `value === ""`, yet `equals("")`
returns false through the falsy guard `if (!otherStep) return false`. -/
theorem equalsMatchesValue_cex :
    ¬ (Step.equalsStr ⟨some "", none, none, none⟩ "" =
        decide ((⟨some "", none, none, none⟩ : Step).value = some "")) := by
  decide

/-- Claim C5 amended: for every step and every non-empty string
identifier, `equals` agrees with strict equality of the value property
against that identifier. -/
theorem equalsMatchesValueAmended (st : Step) (x : String) (h : x ≠ "") :
    st.equalsStr x = decide (st.value = some x) := by
  simp [Step.equalsStr, h]

/-- Witness for the amended claim C5 at a concrete step and
identifier. -/
theorem equalsMatchesValueAmended_witness :
    Step.equalsStr ⟨some "Won", some "Won", some 2, none⟩ "Won" =
      decide ((⟨some "Won", some "Won", some 2, none⟩ : Step).value = some "Won") :=
  equalsMatchesValueAmended ⟨some "Won", some "Won", some 2, none⟩ "Won" (by decide)

/-- Claim C3: under the MarkAsComplete scenario the update button either
opens the terminal-outcome chooser without issuing any persistence call
(when the step after the current one equals closedKo or closedOk) or
commits the next step value directly. -/
theorem markAsCompleteCommit (c : Component) (ns : Step)
    (hsc : c.currentScenario = some .markAsComplete)
    (hns : c.nextStepGet = some (some ns)) :
    ((ns.equalsStr c.closedKo || ns.equalsStr c.closedOk) = true →
       c.handleUpdateButtonClick = some { c with openModal := true }) ∧
    ({ c with openModal := true } : Component).updateCalls = c.updateCalls ∧
    ((ns.equalsStr c.closedKo || ns.equalsStr c.closedOk) = false →
       c.handleUpdateButtonClick = some (updateRecordSync c ns.value)) ∧
    (updateRecordSync c ns.value).updateCalls =
      c.updateCalls ++ [⟨c.recordId, c.picklistField, ns.value⟩] := by
  refine ⟨?_, rfl, ?_, rfl⟩
  · intro h
    simp [Component.handleUpdateButtonClick, hsc, hns, h]
  · intro h
    simp [Component.handleUpdateButtonClick, hsc, hns, h]

/-- Witness for claim C3: on the sample component the next step is the
closedOk value Won, so the chooser opens and nothing is persisted; with
the record moved back to New the next step is the open step Working and
it is committed directly. -/
theorem markAsCompleteCommit_witness :
    Component.handleUpdateButtonClick sampleComponent =
      some { sampleComponent with openModal := true } ∧
    Component.handleUpdateButtonClick
        { sampleComponent with record := some (some "New") } =
      some (updateRecordSync { sampleComponent with record := some (some "New") }
        (some "Working")) :=
  ⟨(markAsCompleteCommit sampleComponent ⟨some "Won", some "Won", some 2, none⟩
      rfl (by decide)).1 (by decide),
   (markAsCompleteCommit { sampleComponent with record := some (some "New") }
      ⟨some "Working", some "Working", some 1, none⟩ rfl (by decide)).2.2.1 (by decide)⟩

/-- Claim C6: `_validateSteps` runs its three checks in a fixed order and
a later failing check overwrites the message of an earlier one. When
fewer than three steps are loaded the final message is always the
InsufficientSteps one; with three or more steps a missing closedKo wins
over a missing closedOk, and a missing closedOk alone reports itself. -/
theorem validateStepsLastWins (steps : List Step)
    (closedOk closedKo rtId : String) (prev : Option String) :
    (steps.length < 3 →
       validateStepsErr steps closedOk closedKo rtId prev =
         some (insufficientStepsMsg rtId)) ∧
    (¬ steps.length < 3 →
       steps.any (fun st => st.equalsStr closedKo) = false →
       validateStepsErr steps closedOk closedKo rtId prev =
         some (closedKoMissingMsg closedKo rtId)) ∧
    (¬ steps.length < 3 →
       steps.any (fun st => st.equalsStr closedKo) = true →
       steps.any (fun st => st.equalsStr closedOk) = false →
       validateStepsErr steps closedOk closedKo rtId prev =
         some (closedOkMissingMsg closedOk rtId)) := by
  refine ⟨?_, ?_, ?_⟩
  · intro h
    simp [validateStepsErr, h]
  · intro h hko
    simp [validateStepsErr, h, hko]
  · intro h hko hok
    simp [validateStepsErr, h, hko, hok]

/-- Witness for claim C6: a two-entry list containing both Won and Lost
still reports InsufficientSteps; on the full sample list a missing
closedKo or closedOk value reports its own message. -/
theorem validateStepsLastWins_witness :
    validateStepsErr
        [⟨some "Won", some "Won", some 0, none⟩,
         ⟨some "Lost", some "Lost", some 1, none⟩]
        "Won" "Lost" "rt1" none = some (insufficientStepsMsg "rt1") ∧
    validateStepsErr sampleSteps "Won" "Missing" "rt1" none =
      some (closedKoMissingMsg "Missing" "rt1") ∧
    validateStepsErr sampleSteps "Absent" "Lost" "rt1" none =
      some (closedOkMissingMsg "Absent" "rt1") :=
  ⟨(validateStepsLastWins
      [⟨some "Won", some "Won", some 0, none⟩,
       ⟨some "Lost", some "Lost", some 1, none⟩] "Won" "Lost" "rt1" none).1
      (by decide),
   (validateStepsLastWins sampleSteps "Won" "Missing" "rt1" none).2.1
      (by decide) (by decide),
   (validateStepsLastWins sampleSteps "Absent" "Lost" "rt1" none).2.2
      (by decide) (by decide) (by decide)⟩

/-- Claim C7: `handleSaveButtonClick` is a strict no-op (identical
component state, no persistence call, modal flag untouched) while no
closed outcome is picked; once one is picked, it is committed and the
modal closes (the reset inside the commit also clears the pick). -/
theorem saveButtonSpec (c : Component) :
    (jsTruthy c.selectedClosedStepValue = false →
       c.handleSaveButtonClick = c) ∧
    (jsTruthy c.selectedClosedStepValue = true →
       c.handleSaveButtonClick.openModal = false ∧
       c.handleSaveButtonClick.updateCalls =
         c.updateCalls ++ [⟨c.recordId, c.picklistField, c.selectedClosedStepValue⟩] ∧
       c.handleSaveButtonClick.selectedClosedStepValue = none) := by
  constructor
  · intro h
    simp [Component.handleSaveButtonClick, h]
  · intro h
    simp [Component.handleSaveButtonClick, h, updateRecordSync, resetComponentState]

/-- Witness for claim C7: the sample component has no pick, so the save
button does nothing; with Won picked, the modal closes. -/
theorem saveButtonSpec_witness :
    Component.handleSaveButtonClick sampleComponent = sampleComponent ∧
    (Component.handleSaveButtonClick
        { sampleComponent with selectedClosedStepValue := some "Won" }).openModal =
      false :=
  ⟨(saveButtonSpec sampleComponent).1 (by decide),
   ((saveButtonSpec { sampleComponent with selectedClosedStepValue := some "Won" }).2
      (by decide)).1⟩

/-- Claim C8: every commit, whatever the outcome of the persistence call,
leaves `record`, `selectedStepValue`, `selectedClosedStepValue` and
`currentScenario` cleared, clears the spinner, and on failure surfaces
the error message (on success `errorMsg` is untouched). -/
theorem commitResetsSelectionState (c : Component) (v : Option String)
    (o : UpdateOutcome) :
    (updateRecordFull c v o).record = none ∧
    (updateRecordFull c v o).selectedStepValue = none ∧
    (updateRecordFull c v o).selectedClosedStepValue = none ∧
    (updateRecordFull c v o).currentScenario = none ∧
    (updateRecordFull c v o).spinner = false ∧
    (updateRecordFull c v o).errorMsg =
      (match o with
       | .success => c.errorMsg
       | .failure m => some m) := by
  cases o <;>
    simp [updateRecordFull, updateRecordSync, updateRecordComplete,
      resetComponentState]

/-- Claim C9 as stated is false: after a successful commit on the loaded
sample component, the step list and the object metadata still hold their
pre-commit values instead of being cleared. -/
theorem commitClearsMetadata_cex :
    ¬ ((updateRecordFull sampleComponent (some "Won")
          UpdateOutcome.success).possibleSteps = none ∧
       (updateRecordFull sampleComponent (some "Won")
          UpdateOutcome.success).objectInfo = none) := by
  decide

/-- Claim C9 amended: a commit clears the record, but `possibleSteps` and
`objectInfo` are left exactly as they were; only the external wire
adapters replace them. -/
theorem commitKeepsStepsAndObjectInfo (c : Component) (v : Option String)
    (o : UpdateOutcome) :
    (updateRecordFull c v o).record = none ∧
    (updateRecordFull c v o).possibleSteps = c.possibleSteps ∧
    (updateRecordFull c v o).objectInfo = c.objectInfo := by
  cases o <;>
    simp [updateRecordFull, updateRecordSync, updateRecordComplete,
      resetComponentState]
